import Mathlib

/-!
Verification development for the NMEA-handler serial bridge (`app/main.py`).

The Python source is shallowly embedded: each relevant function is translated
into an executable Lean definition operating on `String` / `List Char`, with
Python floats modelled as `ℚ` (exact decimal arithmetic) and fallible paths
modelled with `Option`.  Theorems below settle the behavioural claims about
framing, classification, checksum handling, the sensor aggregator, history
pruning, baud negotiation, the device-dialect response parser, UDP streaming
and disconnect.
-/

namespace NMEAHandler

/-! ## Python string primitives

Faithful models of the Python string operations the source uses:
`str.split(sep)`, `re.split(r"[\r\n]+", s)`, `str.strip()`, `str.lstrip("$")`,
`str.isdigit()`, `float(s)` (decimal subset) and `int(s, 16)`. -/

/-- Python whitespace characters recognised by `str.strip()` (ASCII subset). -/
def isPyWs (c : Char) : Bool :=
  c = ' ' || c = '\t' || c = '\n' || c = '\r' || c = '\x0b' || c = '\x0c'

/-- `str.strip()`: remove leading and trailing whitespace. -/
def pyStrip (l : List Char) : List Char :=
  ((l.dropWhile isPyWs).reverse.dropWhile isPyWs).reverse

/-- Auxiliary for `splitOn`: accumulates the current chunk (reversed). -/
def splitOnAux (c : Char) : List Char → List Char → List (List Char)
  | [], acc => [acc.reverse]
  | x :: xs, acc =>
      if x = c then acc.reverse :: splitOnAux c xs []
      else splitOnAux c xs (x :: acc)

/-- Python `s.split(c)` on a single-character separator: every occurrence
splits, empty chunks are kept (`"".split(",") == [""]`). -/
def pySplitOn (c : Char) (l : List Char) : List (List Char) :=
  splitOnAux c l []

/-- Auxiliary for `splitRuns`: `acc` is the current chunk (reversed),
`inSep` records whether the previous character belonged to a separator run
(so further separator characters extend the run instead of splitting). -/
def splitRunsGo (p : Char → Bool) : List Char → List Char → Bool → List (List Char)
  | [], acc, _ => [acc.reverse]
  | x :: xs, acc, inSep =>
      if p x then
        if inSep then splitRunsGo p xs [] true
        else acc.reverse :: splitRunsGo p xs [] true
      else splitRunsGo p xs (x :: acc) false

/-- Python `re.split(r"[X]+", s)`: a maximal run of separator characters
produces a single split (a leading/trailing run yields an empty chunk). -/
def splitRuns (p : Char → Bool) (l : List Char) : List (List Char) :=
  splitRunsGo p l [] false

/-- Decimal digit test (`str.isdigit()` on the ASCII subset). -/
def isDigitCh (c : Char) : Bool := '0' ≤ c && c ≤ '9'

/-- Value of a decimal digit string (caller guarantees all digits). -/
def digitsVal (l : List Char) : Nat :=
  l.foldl (fun a c => 10 * a + (c.toNat - '0'.toNat)) 0

/-- Python `s.isdigit()`: nonempty and all characters decimal digits. -/
def pyIsDigit (s : String) : Bool :=
  !s.data.isEmpty && s.data.all isDigitCh

/-- Python `float(s)` restricted to the decimal forms the device emits:
optional surrounding whitespace, optional sign, digits with an optional
fractional part (at least one digit overall).  Exponent/`inf`/`nan` forms are
not modelled; inputs outside the decimal subset return `none` (the Python
call would raise, which the callers catch). -/
def parseRat (s : String) : Option ℚ :=
  let l := pyStrip s.data
  let (sign, l) : ℚ × List Char :=
    match l with
    | '+' :: r => (1, r)
    | '-' :: r => (-1, r)
    | _ => (1, l)
  let ip := l.takeWhile isDigitCh
  let rest := l.drop ip.length
  match rest with
  | [] => if ip.isEmpty then none else some (sign * (digitsVal ip : ℚ))
  | '.' :: r =>
      let fp := r.takeWhile isDigitCh
      if !(r.drop fp.length).isEmpty then none
      else if ip.isEmpty && fp.isEmpty then none
      else some (sign * ((digitsVal ip : ℚ) + (digitsVal fp : ℚ) / (10 : ℚ) ^ fp.length))
  | _ => none

/-- Hex digit test. -/
def isHexCh (c : Char) : Bool :=
  ('0' ≤ c && c ≤ '9') || ('a' ≤ c && c ≤ 'f') || ('A' ≤ c && c ≤ 'F')

/-- Value of a hex digit. -/
def hexVal (c : Char) : Nat :=
  if '0' ≤ c && c ≤ '9' then c.toNat - '0'.toNat
  else if 'a' ≤ c && c ≤ 'f' then c.toNat - 'a'.toNat + 10
  else c.toNat - 'A'.toNat + 10

/-- Value of a hex digit string (caller guarantees all hex digits). -/
def hexDigitsVal (l : List Char) : Nat :=
  l.foldl (fun a c => 16 * a + hexVal c) 0

/-- Python `int(s, 16)`: optional surrounding whitespace, optional sign,
then a nonempty run of hex digits consuming the whole remainder (so `"+1"`
parses to `1` and `"7 "` parses to `7`).  Underscore separators are not
modelled (they cannot occur in the two-character slices the source parses).
`none` models the `ValueError` the callers catch. -/
def pyIntHex (s : String) : Option ℤ :=
  let l := pyStrip s.data
  let (sign, l) : ℤ × List Char :=
    match l with
    | '+' :: r => (1, r)
    | '-' :: r => (-1, r)
    | _ => (1, l)
  let ds := l.takeWhile isHexCh
  if ds.isEmpty then none
  else if !(l.drop ds.length).isEmpty then none
  else some (sign * (hexDigitsVal ds : ℤ))

/-! ## Framer and talker+type classification (`_split_nmea_sentences`,
reader-loop type extraction, `_nmea_checksum_ok`) -/

/-- Is the character a CR or LF? -/
def isCRLF (c : Char) : Bool := c = '\r' || c = '\n'

/-- Python `s.startswith("$")`. -/
def startsWithDollar (s : String) : Bool :=
  match s.data with
  | '$' :: _ => true
  | _ => false

/-- `_split_nmea_sentences`: normalise CR/LF, split each line on `$`, drop
empty and comma-less fragments, re-prepend `$`. -/
def splitNmeaSentences (data : String) : List String :=
  if !data.data.contains '$' then []
  else
    (splitRuns isCRLF data.data).flatMap fun line =>
      let line := pyStrip line
      if line.isEmpty then []
      else
        (pySplitOn '$' line).filterMap fun part =>
          let part := pyStrip part
          if part.isEmpty || !part.contains ',' then none
          else some (String.mk ('$' :: part))

/-- Uppercase A–Z test (the character class of the `^[A-Z]+` regex). -/
def isUpperAZ (c : Char) : Bool := 'A' ≤ c && c ≤ 'Z'

/-- The reader variable `raw_type`: first comma-separated field, `lstrip("$")`,
then `strip()`. -/
def firstFieldStripped (data : String) : List Char :=
  pyStrip (((pySplitOn ',' data.data).headD []).dropWhile (· = '$'))

/-- The reader variable `msg_type`: the leading run of A–Z characters of
`raw_type` when that run is nonempty (`re.match(r"^[A-Z]+", raw_type)`),
otherwise `raw_type` itself (the `else` fallback in the source). -/
def msgTypeOf (data : String) : String :=
  let raw_type := firstFieldStripped data
  let run := raw_type.takeWhile isUpperAZ
  if run.isEmpty then String.mk raw_type else String.mk run

/-- XOR of the ASCII bytes of the body, non-ASCII characters dropped
(`body.encode("ascii", errors="ignore")`). -/
def xorBytes (l : List Char) : Nat :=
  l.foldl (fun a c => if c.toNat ≤ 127 then Nat.xor a c.toNat else a) 0

/-- The bytes between the leading `$` (exclusive) and the first `*`
(exclusive): the `body` half of `raw_line[1:].split("*", 1)`. -/
def checksumBody (raw : String) : List Char :=
  (raw.data.drop 1).takeWhile (· ≠ '*')

/-- The declared-checksum text: everything after the first `*` of
`raw_line[1:]`, stripped (`chk.strip()` in the source). -/
def declaredChecksum (raw : String) : List Char :=
  let after := raw.data.drop 1
  pyStrip ((after.drop (checksumBody raw).length).drop 1)

/-- `_nmea_checksum_ok`: `some true` = checksum ok, `some false` = mismatch,
`none` = no (usable) checksum present.  Mirrors the source: requires a
leading `$` and a `*`; strips the declared-checksum suffix; requires at
least two characters; parses the first two with `int(·, 16)` (any parse
failure is caught and mapped to `none`); compares against the XOR of the
bytes between `$` and the first `*`. -/
def nmeaChecksumOk (raw : String) : Option Bool :=
  if raw.data.isEmpty || !raw.data.contains '*' || !startsWithDollar raw then
    none
  else
    let chk := declaredChecksum raw
    if chk.length < 2 then none
    else
      match pyIntHex (String.mk (chk.take 2)) with
      | none => none
      | some e => some (decide ((xorBytes (checksumBody raw) : ℤ) = e))

/-! ## Sentence registry (`SUPPORTED_SENTENCES` keys) -/

/-- The ids of the registry `SUPPORTED_SENTENCES` (the dict keys; the per-id
metadata is irrelevant to the claims except the uniform default interval). -/
def SUPPORTED_SENTENCES : List String :=
  ["DTM", "GGA", "GLL", "GSA", "GSV", "HDG", "HDT", "MDA", "MWD", "MWVR",
   "MWVT", "RMC", "ROT", "THS", "VTG", "VWR", "VWT", "XDRA", "XDRB", "XDRC",
   "XDRD", "XDRE", "XDRH", "XDRR", "XDRT", "XDRW", "ZDA"]

/-! ## Device-dialect response parser (`query_sentence_config`, per line) -/

/-- The `$PAMTR,EN,…` response-line parser inside `query_sentence_config`:
returns `(sentence_id, enabled, interval)` for a line that updates `config`,
`none` for a line that is skipped.  Mirrors the source: requires the
`$PAMTR,EN,` prefix, splits on commas, requires at least 6 parts, picks the
7-part layout `total,num,id,enabled,interval` when part 4 is a known id and
otherwise reads parts 3/4/5, interprets `enabled` as `= "1"` and a
non-digit interval as the default `10`, and drops unknown ids. -/
def parsePamtrEnLine (line : String) : Option (String × Bool × Nat) :=
  if !("$PAMTR,EN,".data.isPrefixOf line.data) then none
  else
    let parts := (pySplitOn ',' line.data).map String.mk
    if parts.length ≥ 6 then
      let (sid, en, iv) :=
        if parts.length ≥ 7 && SUPPORTED_SENTENCES.contains (parts.getD 4 "") then
          (parts.getD 4 "", parts.getD 5 "", parts.getD 6 "")
        else
          (parts.getD 3 "", parts.getD 4 "", parts.getD 5 "")
      let enabled := en = "1"
      let interval := if pyIsDigit iv then digitsVal iv.data else 10
      if SUPPORTED_SENTENCES.contains sid then some (sid, enabled, interval)
      else none
    else none

/-! ## Sensor aggregator, attitude sub-record (`_parse_nmea_for_dashboard`) -/

/-- The `attitude` sub-record of the `SensorSnapshot` (numeric fields and
the `source` tag; the wall-clock timestamp is not modelled). -/
structure Attitude where
  heading_true : Option ℚ
  heading_magnetic : Option ℚ
  pitch_deg : Option ℚ
  roll_deg : Option ℚ
  rate_of_turn : Option ℚ
  source : Option String
deriving DecidableEq

/-- The fully empty attitude sub-record (all fields `None`). -/
def Attitude.empty : Attitude := ⟨none, none, none, none, none, none⟩

/-- The `YXXDR` group loop of `_parse_nmea_for_dashboard`: groups of four
fields `(type, value, unit, name)` starting at index 1; `PTCH` updates
pitch, `ROLL` updates roll, each unconditionally setting
`source := "YXXDR"`.  A `float()` failure raises, aborting the remaining
groups while keeping the updates already applied (the caller catches the
exception).  `fuel` bounds the recursion (the index strictly grows). -/
def xdrLoop (fields : List String) : Attitude → Nat → Nat → Attitude
  | att, _, 0 => att
  | att, i, fuel + 1 =>
      if i + 3 < fields.length then
        let name := fields.getD (i + 3) ""
        let value := fields.getD (i + 1) ""
        if value ≠ "" then
          match parseRat value with
          | none => att
          | some v =>
              let att' :=
                if name = "PTCH" then
                  { att with pitch_deg := some v, source := some "YXXDR" }
                else if name = "ROLL" then
                  { att with roll_deg := some v, source := some "YXXDR" }
                else att
              xdrLoop fields att' (i + 4) fuel
        else xdrLoop fields att (i + 4) fuel
      else att

/-- The attitude-relevant branches of `_parse_nmea_for_dashboard` (wire
types `HCHDT`, `HCHDG`/`CHDG`, `YXXDR`, `TIROT`); every other type leaves
the attitude sub-record unchanged.  Mirrors the source: strip the checksum
(`split("*")[0]`), split on commas, then per-type guarded field parses; a
`float()` failure is caught and leaves the record as it stood. -/
def parseNmeaAttitude (att : Attitude) (raw msg_type : String) : Attitude :=
  let data := (pySplitOn '*' raw.data).headD []
  let fields := (pySplitOn ',' data).map String.mk
  if msg_type = "HCHDT" then
    if fields.length ≥ 2 && fields.getD 1 "" ≠ "" then
      match parseRat (fields.getD 1 "") with
      | some h => { att with heading_true := some h, source := some "HCHDT" }
      | none => att
    else att
  else if msg_type = "HCHDG" || msg_type = "CHDG" then
    if fields.length ≥ 2 && fields.getD 1 "" ≠ "" then
      match parseRat (fields.getD 1 "") with
      | some h =>
          let att := { att with heading_magnetic := some h }
          if att.source ≠ some "HCHDT" then { att with source := some msg_type }
          else att
      | none => att
    else att
  else if msg_type = "YXXDR" then
    xdrLoop fields att 1 fields.length
  else if msg_type = "TIROT" then
    if fields.length ≥ 3 && fields.getD 2 "" = "A" && fields.getD 1 "" ≠ "" then
      match parseRat (fields.getD 1 "") with
      | some r =>
          let att := { att with rate_of_turn := some r }
          if !(att.source = some "HCHDT" || att.source = some "YXXDR") then
            { att with source := some "TIROT" }
          else att
      | none => att
    else att
  else att

/-! ## Rolling history (`_record_history`) -/

/-- One entry of a sensor-history series: `{'t': epoch_seconds, 'v': value}`. -/
structure HistEntry where
  t : ℚ
  v : ℚ
deriving DecidableEq

/-- `_record_history`: a `None` value is not appended; otherwise append
`(now, value)` and keep exactly the entries with `t ≥ now − 900`. -/
def recordHistory (hist : List HistEntry) (now : ℚ) (value : Option ℚ) :
    List HistEntry :=
  match value with
  | none => hist
  | some v => (hist ++ [(⟨now, v⟩ : HistEntry)]).filter fun e => decide (now - 900 ≤ e.t)

/-! ## UDP fan-out (`start_streaming`, `stop_streaming`, `stream_message`)
and the per-sentence streaming step of the reader -/

/-- The streaming-relevant state: the active flag, the selected wire types,
the `streamed_messages` counter and the list of datagram payloads sent so
far. -/
structure StreamState where
  is_streaming : Bool
  selected : List String
  streamed : Nat
  sent : List String
deriving DecidableEq

/-- `stream_message`: send the raw line plus `"\n"` when streaming is
active and the type is selected; a successful send increments
`streamed_messages`, a failed send recreates the socket and leaves both
the counter and the sink unchanged (the datagram is dropped). -/
def streamMessage (s : StreamState) (message msg_type : String)
    (sendOk : Bool) : StreamState :=
  if s.is_streaming && s.selected.contains msg_type then
    if sendOk then
      { s with sent := s.sent ++ [message ++ "\n"], streamed := s.streamed + 1 }
    else s
  else s

/-- The streaming-relevant tail of one reader-loop iteration for one framed
candidate line (`_read_serial_loop`): classify the type, auto-add it to
`selected_message_types` when absent (persisting the state), then hand the
line to `stream_message` when streaming is active and the type is
selected. -/
def readerProcess (s : StreamState) (data : String) (sendOk : Bool) :
    StreamState :=
  let msg_type := msgTypeOf data
  let s :=
    if s.selected.contains msg_type then s
    else { s with selected := s.selected ++ [msg_type] }
  if s.is_streaming && s.selected.contains msg_type then
    streamMessage s data msg_type sendOk
  else s

/-- The operations that touch the UDP fan-out state. -/
inductive UdpOp where
  | start : UdpOp
  | stop : UdpOp
  | stream (data ty : String) (sendOk : Bool) : UdpOp
deriving DecidableEq

/-- `start_streaming` resets `streamed_messages` to 0 only when streaming
was off (idempotent start); `stop_streaming` closes the socket and leaves
the counter alone; `stream` is `stream_message`. -/
def applyUdpOp (s : StreamState) : UdpOp → StreamState
  | .start =>
      { s with streamed := if s.is_streaming then s.streamed else 0,
               is_streaming := true }
  | .stop => { s with is_streaming := false }
  | .stream d t ok => streamMessage s d t ok

/-! ## Disconnect (`disconnect_serial`) -/

/-- The handler state touched by `disconnect_serial`, together with the
sensor snapshot (represented by its attitude sub-record) and one sensor
history series, which `disconnect_serial` never mentions. -/
structure HandlerState where
  serial_open : Bool
  is_streaming : Bool
  streamed_messages : Nat
  port : Option String
  message_history : List String
  nmea_messages : List String
  sentence_last_seen : List (String × ℚ)
  connected_since : Option ℚ
  messages_received : Nat
  detected_baud : Option Nat
  connection_status : String
  connection_message : String
  should_stop : Bool
  sensor_attitude : Attitude
  history_heading : List HistEntry
deriving DecidableEq

/-- `disconnect_serial`: stop streaming if active, set the reader stop
flag, close the handle, then reset port, message history, detected types,
last-seen map, `connected_since`, `messages_received`, `detected_baud` and
the connection status, and persist.  Returns success.  The snapshot
(`sensor_data`) and sensor history are not touched by the source. -/
def disconnectSerial (s : HandlerState) : Bool × HandlerState :=
  let s := if s.is_streaming then { s with is_streaming := false } else s
  let s := { s with should_stop := true }
  let s := { s with serial_open := false }
  let s := { s with
    port := none
    message_history := []
    nmea_messages := []
    sentence_last_seen := []
    connected_since := none
    messages_received := 0
    detected_baud := none
    connection_status := "disconnected"
    connection_message := "" }
  (true, s)

/-! ## Baud negotiation (`_try_baud_rate`) -/

/-- The acceptance threshold of `_try_baud_rate`:
`min_messages = 5 if baud_rate == 4800 else 1`. -/
def minMessages (baud : Nat) : Nat := if baud = 4800 then 5 else 1

/-- The read loop of `_try_baud_rate` over the lines readable within the
timeout window: count lines starting with `$` and return success as soon
as the count reaches the threshold. -/
def tryBaudLoop (minM : Nat) (count : Nat) : List String → Bool
  | [] => false
  | d :: rest =>
      if startsWithDollar d then
        if count + 1 ≥ minM then true else tryBaudLoop minM (count + 1) rest
      else tryBaudLoop minM count rest

/-- `_try_baud_rate` abstracted over the lines the port delivers within the
3 s window: the first component is acceptance, the second whether the port
handle is left open (the success path returns the open handle; the timeout
path closes it and returns failure). -/
def tryBaudRate (baud : Nat) (reads : List String) : Bool × Bool :=
  if tryBaudLoop (minMessages baud) 0 reads then (true, true) else (false, false)

/-! ## Interval seconds → device tenths (`configure_sentence` route) -/

/-- Python `round()` on an exact value: nearest integer, ties to the even
neighbour (tested as `f % 2 = 0`). -/
def roundHalfEven (q : ℚ) : ℤ :=
  let f := ⌊q⌋
  let r := q - f
  if r < 1 / 2 then f
  else if 1 / 2 < r then f + 1
  else if f % 2 = 0 then f else f + 1

/-- Fuel-driven floor of log₂ (structural recursion, so the kernel can
evaluate it; a fuel of `n` always suffices). -/
def log2Fuel : ℕ → ℕ → ℕ
  | 0, _ => 0
  | fuel + 1, n => if n ≥ 2 then log2Fuel fuel (n / 2) + 1 else 0

/-- The binade exponent of a rational `q ≥ 1`: the floor of log₂ of its
integer part, so `2 ^ floorLog2 q ≤ q < 2 ^ (floorLog2 q + 1)`. -/
def floorLog2 (q : ℚ) : ℕ := log2Fuel ⌊q⌋.toNat ⌊q⌋.toNat

/-- IEEE-754 binary64 rounding (round to nearest, ties to even) expressed
exactly over `ℚ`: scale the value so its binade occupies the 53-bit
significand range, round to an integer with `roundHalfEven`, and scale
back.  This is the exact double rounding for `q ≥ 1` (far below overflow);
values below 1 are returned unchanged, which is all the embedding needs —
the route rounds exactly one product, and the clamp keeps it inside
`[1, 50]`. -/
def fl64 (q : ℚ) : ℚ :=
  if q < 1 then q
  else if floorLog2 q ≤ 52 then
    ((roundHalfEven (q * 2 ^ (52 - floorLog2 q)) : ℤ) : ℚ) / 2 ^ (52 - floorLog2 q)
  else
    ((roundHalfEven (q / 2 ^ (floorLog2 q - 52)) : ℤ) : ℚ) * 2 ^ (floorLog2 q - 52)

/-- The `/api/sentences/configure` unit conversion as the program computes
it in binary64: the clamp bounds are the doubles `0.1`
(= 3602879701896397 / 2^55, the double nearest 1/10) and `5.0` (exact);
Python `max`/`min` select one of their arguments exactly; the single float
product `sec * 10` is rounded to nearest-even by `fl64`; and
`int(round(·))` rounds the resulting double to an integer with ties to
even. -/
def apiIntervalToTenthsFp (q : ℚ) : ℤ :=
  roundHalfEven (fl64 (max (3602879701896397 / 2 ^ 55 : ℚ) (min 5 q) * 10))

/-- Modelled from the spec wording for comparison: the tenths integer
`round(10 * clamp(input, 0.1, 5.0))`. -/
def specRoundedTenths (q : ℚ) : ℤ :=
  roundHalfEven (10 * max (1 / 10 : ℚ) (min 5 q))

/-! ## Theorems -/

/-- C2: the response parser drops the documented short layout
`$PAMTR,EN,<id>,<flag>,<interval>` — the line has only five comma-separated
parts but the code requires at least six — while the long layout
`$PAMTR,EN,<total>,<index>,<id>,<flag>,<interval>` is parsed and recovers
`(enabled, interval)` exactly. -/
theorem pamtr_short_layout_dropped :
    parsePamtrEnLine "$PAMTR,EN,GGA,1,10" = none ∧
    parsePamtrEnLine "$PAMTR,EN,27,1,GGA,1,10" = some ("GGA", true, 10) ∧
    parsePamtrEnLine "$PAMTR,EN,27,2,ROT,0,25" = some ("ROT", false, 25) := by
  decide

/-- C1 (counterexample): starting from an empty attitude record, an
`$HCHDT` sentence makes the source `HCHDT`, and a subsequent lower-priority
`$YXXDR` pitch sentence overwrites that source with `YXXDR` — the claimed
priority `HCHDT > YXXDR` does not hold on the code. -/
theorem attitude_yxxdr_overwrites_hchdt :
    (parseNmeaAttitude Attitude.empty "$HCHDT,45.0,T"
        (msgTypeOf "$HCHDT,45.0,T")).source = some "HCHDT" ∧
    (parseNmeaAttitude
        (parseNmeaAttitude Attitude.empty "$HCHDT,45.0,T"
          (msgTypeOf "$HCHDT,45.0,T"))
        "$YXXDR,A,5.0,D,PTCH" (msgTypeOf "$YXXDR,A,5.0,D,PTCH")).source
      = some "YXXDR" := by
  decide

/-- C4 (counterexample): with streaming active and
`selected_message_types = {HCHDG}`, processing one `$HCHDG` sentence and one
`$WIMWV` sentence sends two datagrams and increments `streamed_messages` by
2, not 1 — the reader auto-adds `WIMWV` to the selected set before the
streaming check. -/
theorem udp_filter_two_datagrams :
    (readerProcess
        (readerProcess (⟨true, ["HCHDG"], 0, []⟩ : StreamState)
          "$HCHDG,31.0,,,2.1,W*3C" true)
        "$WIMWV,045.0,R,12.3,N,A*2C" true).streamed = 2 ∧
    (readerProcess
        (readerProcess (⟨true, ["HCHDG"], 0, []⟩ : StreamState)
          "$HCHDG,31.0,,,2.1,W*3C" true)
        "$WIMWV,045.0,R,12.3,N,A*2C" true).sent.length = 2 := by
  decide

/-- C4 (amended): the same scenario in full: both raw lines go out as
datagrams (each with a trailing newline), `streamed_messages` rises by
exactly 2, and the observed `WIMWV` wire type has been auto-added to
`selected_message_types`. -/
theorem udp_filter_scenario :
    (readerProcess
        (readerProcess (⟨true, ["HCHDG"], 0, []⟩ : StreamState)
          "$HCHDG,31.0,,,2.1,W*3C" true)
        "$WIMWV,045.0,R,12.3,N,A*2C" true)
      = ⟨true, ["HCHDG", "WIMWV"], 2,
         ["$HCHDG,31.0,,,2.1,W*3C\n", "$WIMWV,045.0,R,12.3,N,A*2C\n"]⟩ := by
  decide

/-- C6 (counterexample): the framer turns line noise with no `$` of its own
into the candidate line `$4.2,X`, and classification of that candidate
yields `4.2` — the whole stripped first field — rather than its (empty)
leading run of A–Z characters, so classification does not always keep only
the leading A–Z run. -/
theorem msg_type_fallback_cex :
    splitNmeaSentences "4.2,X$A,1" = ["$4.2,X", "$A,1"] ∧
    (firstFieldStripped "$4.2,X").takeWhile isUpperAZ = [] ∧
    msgTypeOf "$4.2,X" = "4.2" := by
  decide

/-- C10 (counterexample): `$A*+1` has no two-hex-digit checksum (`+` is not
a hexadecimal digit), yet the classifier returns `mismatch` (`some false`)
rather than `missing` (`none`): Python `int("+1", 16)` parses the sign and
yields 1, which differs from the body XOR 0x41. -/
theorem checksum_signed_hex_cex :
    isHexCh '+' = false ∧
    nmeaChecksumOk "$A*+1" = some false := by
  decide

/-- C3 (counterexample): a successful Disconnect from a connected state
with a populated snapshot leaves the attitude sub-record fields and the
sensor history exactly as they were — `disconnect_serial` never clears
`sensor_data` or `sensor_history`, so the sub-record fields are not all
null afterwards. -/
theorem disconnect_keeps_snapshot_cex :
    (disconnectSerial
        { serial_open := true, is_streaming := true, streamed_messages := 7,
          port := some "/dev/ttyUSB0", message_history := ["$A,1"],
          nmea_messages := ["HCHDT"], sentence_last_seen := [("HDT", 5)],
          connected_since := some 1, messages_received := 9,
          detected_baud := some 4800, connection_status := "connected",
          connection_message := "ok", should_stop := false,
          sensor_attitude :=
            { heading_true := some 42, heading_magnetic := none,
              pitch_deg := none, roll_deg := none, rate_of_turn := none,
              source := some "HCHDT" },
          history_heading := [⟨1, 2⟩] }).1 = true ∧
    (disconnectSerial
        { serial_open := true, is_streaming := true, streamed_messages := 7,
          port := some "/dev/ttyUSB0", message_history := ["$A,1"],
          nmea_messages := ["HCHDT"], sentence_last_seen := [("HDT", 5)],
          connected_since := some 1, messages_received := 9,
          detected_baud := some 4800, connection_status := "connected",
          connection_message := "ok", should_stop := false,
          sensor_attitude :=
            { heading_true := some 42, heading_magnetic := none,
              pitch_deg := none, roll_deg := none, rate_of_turn := none,
              source := some "HCHDT" },
          history_heading := [⟨1, 2⟩] }).2.sensor_attitude.heading_true
      = some 42 ∧
    (disconnectSerial
        { serial_open := true, is_streaming := true, streamed_messages := 7,
          port := some "/dev/ttyUSB0", message_history := ["$A,1"],
          nmea_messages := ["HCHDT"], sentence_last_seen := [("HDT", 5)],
          connected_since := some 1, messages_received := 9,
          detected_baud := some 4800, connection_status := "connected",
          connection_message := "ok", should_stop := false,
          sensor_attitude :=
            { heading_true := some 42, heading_magnetic := none,
              pitch_deg := none, roll_deg := none, rate_of_turn := none,
              source := some "HCHDT" },
          history_heading := [⟨1, 2⟩] }).2.history_heading = [⟨1, 2⟩] := by
  decide

/-- C3 (amended): Disconnect always succeeds; afterwards the status is
`disconnected`, streaming is off, the reader stop flag is set, the handle
is closed, and the port, message history, detected types, last-seen map,
`connected_since`, `messages_received` and `detected_baud` are cleared —
but the `SensorSnapshot` sub-records, the sensor history and the
`streamed_messages` counter keep their previous values. -/
theorem disconnect_resets_link_state (s : HandlerState) :
    (disconnectSerial s).1 = true ∧
    (disconnectSerial s).2.connection_status = "disconnected" ∧
    (disconnectSerial s).2.is_streaming = false ∧
    (disconnectSerial s).2.should_stop = true ∧
    (disconnectSerial s).2.serial_open = false ∧
    (disconnectSerial s).2.port = none ∧
    (disconnectSerial s).2.message_history = [] ∧
    (disconnectSerial s).2.nmea_messages = [] ∧
    (disconnectSerial s).2.sentence_last_seen = [] ∧
    (disconnectSerial s).2.connected_since = none ∧
    (disconnectSerial s).2.messages_received = 0 ∧
    (disconnectSerial s).2.detected_baud = none ∧
    (disconnectSerial s).2.sensor_attitude = s.sensor_attitude ∧
    (disconnectSerial s).2.history_heading = s.history_heading ∧
    (disconnectSerial s).2.streamed_messages = s.streamed_messages := by
  by_cases h : s.is_streaming <;> simp [disconnectSerial, h]

/-- C5: `_record_history` appends nothing for a null value; after a genuine
append every retained entry is at most 900 seconds old; and, provided no
stored timestamp exceeds the append time (appends happen in wall-clock
order), any two retained entries are within 900 seconds of each other. -/
theorem history_window_bound (hist : List HistEntry) (now : ℚ)
    (value : Option ℚ) :
    (value = none → recordHistory hist now value = hist) ∧
    (∀ x, value = some x →
      ∀ e ∈ recordHistory hist now value, now - 900 ≤ e.t) ∧
    ((∀ e ∈ hist, e.t ≤ now) → ∀ x, value = some x →
      ∀ e1 ∈ recordHistory hist now value,
        ∀ e2 ∈ recordHistory hist now value, e1.t - e2.t ≤ 900) := by
  refine ⟨fun h => by rw [h, recordHistory], ?_, ?_⟩
  · rintro x rfl e he
    rw [recordHistory] at he
    simp only [List.mem_filter, decide_eq_true_eq] at he
    exact he.2
  · rintro hb x rfl e1 h1 e2 h2
    have hub : e1.t ≤ now := by
      rw [recordHistory] at h1
      simp only [List.mem_filter, List.mem_append, List.mem_singleton] at h1
      rcases h1.1 with h | h
      · exact hb _ h
      · rw [h]
    have hlb : now - 900 ≤ e2.t := by
      rw [recordHistory] at h2
      simp only [List.mem_filter, decide_eq_true_eq] at h2
      exact h2.2
    linarith

/-- C5 (witness): a concrete append within a monotone series keeps every
pair of retained entries within 900 seconds. -/
theorem history_window_bound_witness :
    ∀ e1 ∈ recordHistory [⟨100, 1⟩] 1000 (some 2),
      ∀ e2 ∈ recordHistory [⟨100, 1⟩] 1000 (some 2), e1.t - e2.t ≤ 900 :=
  (history_window_bound [⟨100, 1⟩] 1000 (some 2)).2.2 (by decide) 2 rfl

/-- C9: `streamed_messages` is reset to 0 only by `start_streaming` from a
non-streaming state; a start while already streaming leaves it unchanged;
every operation otherwise leaves the counter unchanged or increments it by
exactly one per successfully sent datagram (a `stream` op adds one exactly
when streaming is active, the type is selected and the send succeeds). -/
theorem streamed_counter_monotone (s : StreamState) (op : UdpOp) :
    (op = .start → s.is_streaming = true →
      (applyUdpOp s op).streamed = s.streamed) ∧
    (op = .start → s.is_streaming = false → (applyUdpOp s op).streamed = 0) ∧
    ((applyUdpOp s op).streamed = s.streamed ∨
      (applyUdpOp s op).streamed = s.streamed + 1 ∨
      (op = .start ∧ s.is_streaming = false ∧ (applyUdpOp s op).streamed = 0)) ∧
    (∀ d t ok, op = .stream d t ok →
      (applyUdpOp s op).streamed = s.streamed +
        (if s.is_streaming && s.selected.contains t && ok then 1 else 0)) := by
  cases op with
  | start =>
      cases h : s.is_streaming <;>
        simp [applyUdpOp, h]
  | stop => simp [applyUdpOp]
  | stream d t ok =>
      refine ⟨by simp, by simp, ?_, ?_⟩
      · rw [applyUdpOp, streamMessage]
        split
        · split
          · right; left; rfl
          · left; rfl
        · left; rfl
      · rintro d t ok ⟨rfl, rfl, rfl⟩
        rw [applyUdpOp, streamMessage]
        cases hc : s.is_streaming && s.selected.contains t with
        | false => simp [hc]
        | true => cases ok <;> simp [hc]

/-- C9 (witness): an idempotent start — starting while already streaming —
leaves the counter at its current value. -/
theorem streamed_counter_monotone_witness :
    (applyUdpOp (⟨true, [], 5, []⟩ : StreamState) .start).streamed = 5 :=
  (streamed_counter_monotone ⟨true, [], 5, []⟩ .start).1 rfl rfl

/-- C1 (amended): the code enforces exactly two protections on
`attitude.source`: an `HCHDG`/`CHDG` sentence never overwrites an
`HCHDT`-sourced source, and a `TIROT` sentence never overwrites an
`HCHDT`- or `YXXDR`-sourced source.  (`HCHDT` and `YXXDR` write the source
unconditionally.) -/
theorem attitude_source_protection (att : Attitude) (raw : String) :
    (att.source = some "HCHDT" →
      (parseNmeaAttitude att raw "HCHDG").source = some "HCHDT" ∧
      (parseNmeaAttitude att raw "CHDG").source = some "HCHDT") ∧
    (att.source = some "HCHDT" ∨ att.source = some "YXXDR" →
      (parseNmeaAttitude att raw "TIROT").source = att.source) := by
  constructor
  · intro h
    constructor <;>
    · rw [parseNmeaAttitude]
      repeat' split
      all_goals simp_all
  · intro h
    rw [parseNmeaAttitude]
    repeat' split
    all_goals rcases h with h | h
    all_goals simp_all

/-- C1 (witness): with an `HCHDT`-sourced attitude, a magnetic-heading
`HCHDG` sentence leaves the source at `HCHDT`. -/
theorem attitude_source_protection_witness :
    (parseNmeaAttitude
        { heading_true := some 45, heading_magnetic := none,
          pitch_deg := none, roll_deg := none, rate_of_turn := none,
          source := some "HCHDT" } "$HCHDG,31.0,,,2.1,W" "HCHDG").source
      = some "HCHDT" :=
  ((attitude_source_protection
      { heading_true := some 45, heading_magnetic := none,
        pitch_deg := none, roll_deg := none, rate_of_turn := none,
        source := some "HCHDT" } "$HCHDG,31.0,,,2.1,W").1 rfl).1

/-- C6 (amended): classification takes the first comma-separated field,
strips leading `$` characters and surrounding whitespace, and keeps the
leading run of A–Z characters whenever that run is nonempty (falling back
to the whole stripped field otherwise); in particular the framed truncated
fragment `$HCHDG31.0,…` is classified as `HCHDG`, not `HCHDG31`. -/
theorem msg_type_leading_upper_run :
    (∀ s : String, (firstFieldStripped s).takeWhile isUpperAZ ≠ [] →
      msgTypeOf s = String.mk ((firstFieldStripped s).takeWhile isUpperAZ)) ∧
    splitNmeaSentences "$HCHDG31.0,31.1,M*7C\r\n$WIMWV,045.0,R,12.3,N,A*2C"
      = ["$HCHDG31.0,31.1,M*7C", "$WIMWV,045.0,R,12.3,N,A*2C"] ∧
    msgTypeOf "$HCHDG31.0,31.1,M*7C" = "HCHDG" := by
  refine ⟨fun s h => ?_, by decide, by decide⟩
  rw [msgTypeOf]
  simp only [List.isEmpty_iff]
  rw [if_neg h]

/-- C6 (witness): a clean `$WIMWV` line is classified by its leading A–Z
run. -/
theorem msg_type_leading_upper_run_witness :
    msgTypeOf "$WIMWV,045.0,R" =
      String.mk ((firstFieldStripped "$WIMWV,045.0,R").takeWhile isUpperAZ) :=
  msg_type_leading_upper_run.1 "$WIMWV,045.0,R" (by decide)

/-- The read loop (called with a running count below the threshold, as the
source does) accepts exactly when the count of `$`-initial lines reaches
the threshold. -/
lemma tryBaudLoop_true_iff (m : Nat) :
    ∀ (reads : List String) (c : Nat), c < m →
      (tryBaudLoop m c reads = true ↔
        m ≤ c + (reads.filter startsWithDollar).length) := by
  intro reads
  induction reads with
  | nil =>
      intro c hc
      simp only [tryBaudLoop, List.filter_nil, List.length_nil]
      constructor
      · intro h; exact absurd h (by simp)
      · omega
  | cons d rest ih =>
      intro c hc
      rw [tryBaudLoop]
      cases hd : startsWithDollar d with
      | false =>
          rw [if_neg (by simp [hd])]
          rw [ih c hc]
          simp [List.filter, hd]
      | true =>
          rw [if_pos (by simp [hd])]
          by_cases hge : c + 1 ≥ m
          · rw [if_pos hge]
            simp only [List.filter, hd, List.length_cons, true_iff]
            omega
          · rw [if_neg hge]
            rw [ih (c + 1) (by omega)]
            simp only [List.filter, hd, List.length_cons]
            omega

/-- C7: `_try_baud_rate` accepts a candidate rate exactly when the lines
readable within the timeout contain at least `min_messages` lines starting
with `$`, where the threshold is 5 at 4800 baud and 1 at 38400 baud; when
the threshold is not met the attempt fails with the port closed. -/
theorem baud_acceptance_threshold (baud : Nat) (reads : List String) :
    ((tryBaudRate baud reads).1 = true ↔
      minMessages baud ≤ (reads.filter startsWithDollar).length) ∧
    minMessages 4800 = 5 ∧ minMessages 38400 = 1 ∧
    ((tryBaudRate baud reads).1 = false → (tryBaudRate baud reads).2 = false) := by
  have hm : 0 < minMessages baud := by
    rw [minMessages]; split <;> omega
  have hloop := tryBaudLoop_true_iff (minMessages baud) reads 0 hm
  have hfst : (tryBaudRate baud reads).1 = tryBaudLoop (minMessages baud) 0 reads := by
    rw [tryBaudRate]
    split
    · next h => simp [h]
    · next h => simp [Bool.eq_false_iff.mpr h]
  refine ⟨?_, by decide, by decide, ?_⟩
  · rw [hfst]
    simpa using hloop
  · rw [tryBaudRate]
    split <;> simp

/-- C7 (witness): at 38400 baud a single `$`-initial line within the window
is accepted. -/
theorem baud_acceptance_threshold_witness :
    (tryBaudRate 38400 ["$GPGGA,1,2"]).1 = true :=
  (baud_acceptance_threshold 38400 ["$GPGGA,1,2"]).1.mpr (by decide)

/-- Bounds for banker-rounding a rational already inside `[1, 50]`. -/
lemma roundHalfEven_mem_Icc {q : ℚ} (h1 : 1 ≤ q) (h2 : q ≤ 50) :
    1 ≤ roundHalfEven q ∧ roundHalfEven q ≤ 50 := by
  have hf1 : (1 : ℤ) ≤ ⌊q⌋ := by
    rw [Int.le_floor]; exact_mod_cast h1
  have hf2 : ⌊q⌋ ≤ 50 := by
    have := Int.floor_le_floor h2
    simpa using this
  rw [roundHalfEven]
  by_cases hf : ⌊q⌋ ≤ 49
  · split_ifs <;> omega
  · have hf50 : ⌊q⌋ = 50 := by omega
    have hq : (50 : ℚ) ≤ q := by
      have := Int.floor_le q
      rw [hf50] at this
      exact_mod_cast this
    have hq50 : q = 50 := le_antisymm h2 hq
    subst hq50
    norm_num [hf50]

/-- `roundHalfEven` is monotone. -/
lemma roundHalfEven_mono {a b : ℚ} (hab : a ≤ b) :
    roundHalfEven a ≤ roundHalfEven b := by
  have hf : ⌊a⌋ ≤ ⌊b⌋ := Int.floor_le_floor hab
  rcases eq_or_lt_of_le hf with heq | hlt
  · have hr : a - (⌊a⌋ : ℚ) ≤ b - (⌊b⌋ : ℚ) := by
      rw [← heq]; linarith
    rw [roundHalfEven, roundHalfEven, ← heq]
    split_ifs <;> first | omega | linarith
  · have ha : roundHalfEven a ≤ ⌊a⌋ + 1 := by
      rw [roundHalfEven]; split_ifs <;> omega
    have hb2 : ⌊b⌋ ≤ roundHalfEven b := by
      rw [roundHalfEven]; split_ifs <;> omega
    omega

/-- `roundHalfEven` is the identity on integers. -/
lemma roundHalfEven_intCast (n : ℤ) : roundHalfEven (n : ℚ) = n := by
  rw [roundHalfEven, Int.floor_intCast]
  norm_num

/-- The fuel-driven log is bounded by its argument. -/
lemma log2Fuel_le : ∀ fuel n : ℕ, log2Fuel fuel n ≤ n := by
  intro fuel
  induction fuel with
  | zero => intro n; simp [log2Fuel]
  | succ f ih =>
      intro n
      rw [log2Fuel]
      split
      · next h => have := ih (n / 2); omega
      · omega

/-- Binary64 rounding maps `[1, 50]` into itself: the endpoints scale to
integers (fixed by `roundHalfEven`), so monotone rounding cannot cross
them. -/
lemma fl64_mem_Icc {x : ℚ} (h1 : 1 ≤ x) (h2 : x ≤ 50) :
    1 ≤ fl64 x ∧ fl64 x ≤ 50 := by
  have hfl : ⌊x⌋.toNat ≤ 50 := by
    have h := Int.floor_le_floor h2
    have h50 : ⌊(50 : ℚ)⌋ = 50 := by norm_num
    omega
  have hle : floorLog2 x ≤ 52 := by
    have hlog := log2Fuel_le ⌊x⌋.toNat ⌊x⌋.toNat
    rw [floorLog2]
    omega
  rw [fl64, if_neg (by linarith : ¬ x < 1), if_pos hle]
  have hp : (0 : ℚ) < 2 ^ (52 - floorLog2 x) := by positivity
  have hlow : ((2 ^ (52 - floorLog2 x) : ℤ) : ℚ) ≤ x * 2 ^ (52 - floorLog2 x) := by
    push_cast
    nlinarith
  have hhigh : x * 2 ^ (52 - floorLog2 x) ≤ ((50 * 2 ^ (52 - floorLog2 x) : ℤ) : ℚ) := by
    push_cast
    nlinarith
  have hrl := roundHalfEven_mono hlow
  have hrh := roundHalfEven_mono hhigh
  rw [roundHalfEven_intCast] at hrl hrh
  constructor
  · rw [le_div_iff₀ hp, one_mul]
    calc (2 : ℚ) ^ (52 - floorLog2 x)
        = ((2 ^ (52 - floorLog2 x) : ℤ) : ℚ) := by push_cast; ring
      _ ≤ _ := by exact_mod_cast hrl
  · rw [div_le_iff₀ hp]
    calc ((roundHalfEven (x * 2 ^ (52 - floorLog2 x)) : ℤ) : ℚ)
        ≤ ((50 * 2 ^ (52 - floorLog2 x) : ℤ) : ℚ) := by exact_mod_cast hrh
      _ = 50 * 2 ^ (52 - floorLog2 x) := by push_cast; ring

/-- Evaluation rule for `roundHalfEven` once the enclosing integer is
known. -/
lemma roundHalfEven_eval (n : ℤ) {q : ℚ} (h1 : (n : ℚ) ≤ q)
    (h2 : q < (n : ℚ) + 1) :
    roundHalfEven q =
      if q - (n : ℚ) < 1 / 2 then n
      else if 1 / 2 < q - (n : ℚ) then n + 1
      else if n % 2 = 0 then n else n + 1 := by
  have hf : ⌊q⌋ = n := by
    rw [Int.floor_eq_iff]
    exact ⟨h1, by linarith⟩
  rw [roundHalfEven, hf]

/-- C8 (counterexample): at the double nearest 0.35 — the value the route
receives for the JSON input 0.35, namely 6305039478318694 / 2^54 — the
float product `0.35 * 10` rounds up to exactly 3.5 (a half-ulp tie) and
Python `round(3.5)` gives 4, while the exact spec formula
`round(10 * clamp(input, 0.1, 5.0))` gives 3; so the tenths integer passed
to the device does not equal the exact formula. -/
theorem interval_tenths_float_cex :
    apiIntervalToTenthsFp (6305039478318694 / 2 ^ 54) = 4 ∧
    specRoundedTenths (6305039478318694 / 2 ^ 54) = 3 := by
  have hmin : min (5 : ℚ) (6305039478318694 / 2 ^ 54) = 6305039478318694 / 2 ^ 54 :=
    min_eq_right (by norm_num)
  have hprod : (6305039478318694 / 2 ^ 54 : ℚ) * 10 = 15762598695796735 / 2 ^ 52 := by
    norm_num
  have hfloor3 : ⌊(15762598695796735 / 2 ^ 52 : ℚ)⌋ = 3 := by
    rw [Int.floor_eq_iff]
    constructor
    · norm_num
    · norm_num
  constructor
  · have hmax : max (3602879701896397 / 2 ^ 55 : ℚ) (6305039478318694 / 2 ^ 54)
        = 6305039478318694 / 2 ^ 54 :=
      max_eq_right (by norm_num)
    have hlog : floorLog2 (15762598695796735 / 2 ^ 52 : ℚ) = 1 := by
      rw [floorLog2, hfloor3]
      rfl
    have htie : roundHalfEven (15762598695796735 / 2 : ℚ) = 7881299347898368 := by
      rw [roundHalfEven_eval 7881299347898367 (by norm_num) (by norm_num)]
      norm_num
    have hfl : fl64 (15762598695796735 / 2 ^ 52 : ℚ) = 7 / 2 := by
      rw [fl64, if_neg (by norm_num), hlog, if_pos (by norm_num)]
      have hx : (15762598695796735 / 2 ^ 52 : ℚ) * 2 ^ (52 - 1 : ℕ)
          = 15762598695796735 / 2 := by
        norm_num
      rw [hx, htie]
      norm_num
    have h72 : roundHalfEven (7 / 2 : ℚ) = 4 := by
      rw [roundHalfEven_eval 3 (by norm_num) (by norm_num)]
      norm_num
    rw [apiIntervalToTenthsFp, hmin, hmax, hprod, hfl, h72]
  · have hmax2 : max (1 / 10 : ℚ) (6305039478318694 / 2 ^ 54)
        = 6305039478318694 / 2 ^ 54 :=
      max_eq_right (by norm_num)
    have hprod2 : (10 : ℚ) * (6305039478318694 / 2 ^ 54) = 15762598695796735 / 2 ^ 52 := by
      norm_num
    have h3 : roundHalfEven (15762598695796735 / 2 ^ 52 : ℚ) = 3 := by
      rw [roundHalfEven_eval 3 (by norm_num) (by norm_num)]
      norm_num
    rw [specRoundedTenths, hmin, hmax2, hprod2, h3]

/-- C8 (amended): computed in binary64 exactly as the route does — the
clamp selecting between the doubles 0.1 and 5.0, one correctly rounded
float product, then ties-to-even rounding to an integer — the tenths value
always lies in the device range `[1, 50]` (it can differ from the exact
`round(10 * clamp(input, 0.1, 5.0))` by one at half-ulp ties of the
product). -/
theorem interval_tenths_in_range (q : ℚ) :
    1 ≤ apiIntervalToTenthsFp q ∧ apiIntervalToTenthsFp q ≤ 50 := by
  have h0 : (1 : ℚ) ≤ (3602879701896397 / 2 ^ 55 : ℚ) * 10 := by norm_num
  have hmx := le_max_left (3602879701896397 / 2 ^ 55 : ℚ) (min 5 q)
  have hs1 : (1 : ℚ) ≤ max (3602879701896397 / 2 ^ 55 : ℚ) (min 5 q) * 10 := by
    nlinarith
  have hs2 : max (3602879701896397 / 2 ^ 55 : ℚ) (min 5 q) * 10 ≤ 50 := by
    have h : max (3602879701896397 / 2 ^ 55 : ℚ) (min 5 q) ≤ 5 :=
      max_le (by norm_num) (min_le_left _ _)
    linarith
  have hb := fl64_mem_Icc hs1 hs2
  rw [apiIntervalToTenthsFp]
  exact roundHalfEven_mem_Icc hb.1 hb.2

/-- C10 (amended): the checksum classifier is total by construction and
returns `missing` (`none`) when the line lacks a leading `$` or a `*`, or
the stripped declared checksum has fewer than two characters, or its first
two characters do not parse as a Python base-16 integer; a definite verdict
`some b` arises only when that parse succeeds, with `b` true exactly when
the parsed value equals the XOR of the bytes between `$` and the first
`*`; in particular `mismatch` requires a successful parse with a differing
value. -/
theorem checksum_classification (raw : String) :
    (¬ raw.data.contains '*' = true → nmeaChecksumOk raw = none) ∧
    (startsWithDollar raw = false → nmeaChecksumOk raw = none) ∧
    ((declaredChecksum raw).length < 2 → nmeaChecksumOk raw = none) ∧
    (pyIntHex (String.mk ((declaredChecksum raw).take 2)) = none →
      nmeaChecksumOk raw = none) ∧
    (∀ b, nmeaChecksumOk raw = some b →
      ∃ e, pyIntHex (String.mk ((declaredChecksum raw).take 2)) = some e ∧
        (b = true ↔ (xorBytes (checksumBody raw) : ℤ) = e)) := by
  refine ⟨fun h => ?_, fun h => ?_, fun h => ?_, fun h => ?_, fun b hb => ?_⟩
  · have h' : ¬ '*' ∈ raw.data := fun hm => h (by simpa using hm)
    simp [nmeaChecksumOk, h']
  · simp [nmeaChecksumOk, h]
  · simp [nmeaChecksumOk, h]
  · simp [nmeaChecksumOk, h]
  · simp only [nmeaChecksumOk] at hb
    split at hb
    · exact absurd hb (by simp)
    · split at hb
      · exact absurd hb (by simp)
      · split at hb
        · exact absurd hb (by simp)
        · next e he =>
            refine ⟨e, he, ?_⟩
            have hb' := Option.some.inj hb
            constructor
            · intro h1; rw [h1] at hb'; exact of_decide_eq_true hb'
            · intro h1; rw [← hb']; exact decide_eq_true h1

/-- C10 (witness): `$A*FF` carries a parsable declared checksum `FF` whose
value 255 differs from the body XOR 0x41, and the classifier indeed returns
`mismatch` with exactly that parsed value. -/
theorem checksum_classification_witness :
    ∃ e, pyIntHex (String.mk ((declaredChecksum "$A*FF").take 2)) = some e ∧
      (false = true ↔ (xorBytes (checksumBody "$A*FF") : ℤ) = e) :=
  (checksum_classification "$A*FF").2.2.2.2 false (by decide)

end NMEAHandler
